import Mathlib

/-!
Shallow embedding of the scoring core of `app.py` (Lyreco Accessibility
Monitor).  Python floats are modelled as exact rationals (`ℚ`), Python ints
as `ℤ`, counts as `ℕ`, and values that may be `None` as `Option`.  Network
and browser effects are modelled by passing the outcome of each external
call as an explicit argument.
-/

namespace AccessApp

/-- Floor of a rational, computed directly on numerator and denominator so
that `decide` can evaluate it in the kernel. -/
def rfloor (q : ℚ) : ℤ := q.num.fdiv q.den

/-- Round a rational to the nearest integer, halves to even: the rounding
mode of Python builtin `round`. -/
def roundHalfEven (q : ℚ) : ℤ :=
  let f : ℤ := rfloor q
  let r : ℚ := q - (f : ℚ)
  if r < 1/2 then f
  else if (1 : ℚ)/2 < r then f + 1
  else if f % 2 = 0 then f else f + 1

/-- Python `round(x, 1)`. -/
def pyRound1 (q : ℚ) : ℚ := (roundHalfEven (q * 10) : ℚ) / 10

/-- Python string slicing `s[:n]`. -/
def pyTruncate (s : String) (n : ℕ) : String := ⟨s.data.take n⟩

/-- Python truthiness of an optional string (`bool(x)` for `x : str | None`):
`None` and the empty string are falsy. -/
def pyTruthyStr : Option String → Bool
  | none => false
  | some s => s != ""

/-- Embeds `safe_int` from app.py: `None` (and unparsable input) maps to 0. -/
def safe_int (v : Option ℤ) : ℤ := v.getD 0

/-- Embeds `safe_float` from app.py: `None` (and unparsable input) maps to 0.0. -/
def safe_float (v : Option ℚ) : ℚ := v.getD 0

/-- One violation object from the axe-core result; only the `impact` field is
relevant to scoring.  `none` models both an absent key and a JSON null. -/
structure Violation where
  impact : Option String
  deriving DecidableEq

/-- The dictionary returned by `run_axe_test`. -/
structure AxeReading where
  total_violations : ℕ
  critical : ℕ
  serious : ℕ
  moderate : ℕ
  minor : ℕ
  violations_details : List Violation
  error : Option String
  deriving DecidableEq

/-- Embeds `sum(1 for v in violations if v.get("impact") == s)`. -/
def countImpact (vs : List Violation) (s : String) : ℕ :=
  (vs.filter (fun v => v.impact == some s)).length

/-- The success return value of `run_axe_test` (app.py lines 248-256). -/
def axeSuccess (violations : List Violation) : AxeReading :=
  { total_violations := violations.length
    critical := countImpact violations "critical"
    serious := countImpact violations "serious"
    moderate := countImpact violations "moderate"
    minor := countImpact violations "minor"
    violations_details := violations.take 5
    error := none }

/-- The failure return value of `run_axe_test` after the last attempt
(app.py lines 258-267): all counts zero, message truncated to 120 chars. -/
def axeFailure (msg : String) : AxeReading :=
  { total_violations := 0
    critical := 0
    serious := 0
    moderate := 0
    minor := 0
    violations_details := []
    error := some (pyTruncate msg 120) }

/-- Outcome of one attempt of the axe-core run: `Except.error` covers both a
result dict carrying an `error` field (re-raised) and a thrown exception;
`Except.ok` carries the extracted violation list. -/
abbrev AxeAttempt := Except String (List Violation)

/-- Embeds the retry loop of `run_axe_test(url, retries)`: the list holds the
outcome of each attempt, its length playing the role of `retries`.  A failed
attempt that is not the last one is retried; the last failure returns the
error reading; Python returns `None` when `retries = 0` (empty loop). -/
def run_axe_test : List AxeAttempt → Option AxeReading
  | [] => none
  | .ok vs :: _ => some (axeSuccess vs)
  | [.error msg] => some (axeFailure msg)
  | .error _ :: rest => run_axe_test rest

/-- The two-attempt unrolling of `run_axe_test`, matching the call in
`run_audit` which uses the default `retries=2`. -/
def run_axe_test2 (a₁ a₂ : AxeAttempt) : AxeReading :=
  match a₁ with
  | .ok vs => axeSuccess vs
  | .error _ =>
    match a₂ with
    | .ok vs => axeSuccess vs
    | .error m => axeFailure m

/-- Embeds `calculate_component_scores` (app.py lines 275-284). -/
def calculate_component_scores (lh_pct : Option ℚ)
    (wave_errors wave_contrast axe_critical axe_serious : Option ℤ) :
    ℚ × ℚ × ℚ :=
  let lh_score := safe_float lh_pct
  let wave_penalty : ℚ := (safe_int wave_errors : ℚ) * (6/5) + (safe_int wave_contrast : ℚ) * (1/2)
  let wave_score := max 0 (100 - wave_penalty)
  let axe_penalty : ℚ := (safe_int axe_critical : ℚ) * 10 + (safe_int axe_serious : ℚ) * 5
  let axe_score := max 0 (100 - axe_penalty)
  (lh_score, wave_score, axe_score)

/-- The weight dictionary of `calculate_weighted_score`. -/
structure Weights where
  lighthouse : ℚ
  wave : ℚ
  axe : ℚ
  deriving DecidableEq

/-- Embeds `calculate_weighted_score` (app.py lines 287-309). -/
def calculate_weighted_score (lh_score wave_score axe_score : ℚ)
    (axe_available : Bool) : ℚ :=
  let weights : Weights := { lighthouse := 2/5, wave := 3/10, axe := 3/10 }
  let weights := if axe_available then weights else { weights with axe := 0 }
  let total_weight := weights.lighthouse + weights.wave + weights.axe
  if total_weight = 0 then 0
  else
    pyRound1 (lh_score * (weights.lighthouse / total_weight)
      + wave_score * (weights.wave / total_weight)
      + axe_score * (weights.axe / total_weight))

/-- The five-rule tail of `generate_recommendations` (critical-count, then
serious-count, then contrast, then error-count, then score band), without the
leading axe-error rule and without the final default.  A sequence of
conditional `append` calls threading one list is embedded as the
concatenation, in the same order, of the conditionally appended singleton
lists. -/
def rule_body (score : ℚ) (wave_errors contrast : ℤ)
    (axe_critical axe_serious : ℤ) : List String :=
  (if 0 < axe_critical then
      ["🔴 CRITICAL: Fix " ++ toString axe_critical ++ " critical violations (axe-core)"]
    else [])
  ++ (if 0 < axe_serious then
      ["🟠 HIGH: Resolve " ++ toString axe_serious ++ " serious violations (axe-core)"]
    else [])
  ++ (if 10 < contrast then
      ["🟡 HIGH: Fix " ++ toString contrast ++ " contrast issues (WCAG AA)"]
    else if 0 < contrast then
      ["🟡 MEDIUM: Improve " ++ toString contrast ++ " contrast ratios"]
    else [])
  ++ (if 20 < wave_errors then
      ["🔴 HIGH: " ++ toString wave_errors ++ " accessibility errors detected"]
    else if 5 < wave_errors then
      ["🟡 MEDIUM: " ++ toString wave_errors ++ " errors need attention"]
    else [])
  ++ (if score < 60 then
      ["⚠️ ACTION REQUIRED: Critical barriers present"]
    else if score < 80 then
      ["📋 PLAN: Schedule fixes in next sprint"]
    else if 90 ≤ score then
      ["✅ MAINTAIN: Monitor for regressions"]
    else [])

/-- Embeds `generate_recommendations` (app.py lines 312-340), with the
truthiness of the `axe_error` argument already evaluated to a `Bool`.  A
sequence of conditional `append` calls threading one list is embedded as the
concatenation, in the same order, of the conditionally appended singleton
lists; the final line returns the default when the accumulated list is
empty. -/
def generate_recommendations (score : ℚ) (wave_errors contrast : ℤ)
    (axe_critical axe_serious : ℤ) (axe_error : Bool) : List String :=
  let recs : List String :=
    (if axe_error then ["⚠️ Axe-core unstable: results not included in score"] else [])
    ++ (if 0 < axe_critical then
        ["🔴 CRITICAL: Fix " ++ toString axe_critical ++ " critical violations (axe-core)"]
      else [])
    ++ (if 0 < axe_serious then
        ["🟠 HIGH: Resolve " ++ toString axe_serious ++ " serious violations (axe-core)"]
      else [])
    ++ (if 10 < contrast then
        ["🟡 HIGH: Fix " ++ toString contrast ++ " contrast issues (WCAG AA)"]
      else if 0 < contrast then
        ["🟡 MEDIUM: Improve " ++ toString contrast ++ " contrast ratios"]
      else [])
    ++ (if 20 < wave_errors then
        ["🔴 HIGH: " ++ toString wave_errors ++ " accessibility errors detected"]
      else if 5 < wave_errors then
        ["🟡 MEDIUM: " ++ toString wave_errors ++ " errors need attention"]
      else [])
    ++ (if score < 60 then
        ["⚠️ ACTION REQUIRED: Critical barriers present"]
      else if score < 80 then
        ["📋 PLAN: Schedule fixes in next sprint"]
      else if 90 ≤ score then
        ["✅ MAINTAIN: Monitor for regressions"]
      else [])
  if recs = [] then ["✅ No major issues detected"] else recs

/-- Recommendation generation as the specification words it for claim C9:
the rule list is exactly critical-count, serious-count, contrast, error-count,
score band (no rule for the error flag), with the default when no rule
fires. -/
def spec_recommendations (score : ℚ) (wave_errors contrast : ℤ)
    (axe_critical axe_serious : ℤ) (_axe_error : Bool) : List String :=
  let recs := rule_body score wave_errors contrast axe_critical axe_serious
  if recs = [] then ["✅ No major issues detected"] else recs

/-- Outcome of one external HTTP fetch in `run_audit`: `failed` covers a
non-200 status, a network failure and a timeout (all of which leave the
default raw metrics in place). -/
inductive Fetch (α : Type) where
  | ok : α → Fetch α
  | failed : Fetch α
  deriving DecidableEq

/-- Lighthouse raw value in `run_audit`: `lh_val` stays 0.0 unless the call
returned 200 with a non-null score, in which case it is `score * 100`.  The
payload of `Fetch.ok` is the fractional `score` field (null modelled as
`none`). -/
def lh_value : Fetch (Option ℚ) → ℚ
  | .ok (some sv) => sv * 100
  | .ok none => 0
  | .failed => 0

/-- WAVE raw counts in `run_audit`: `err` and `con` stay 0 unless the call
returned 200, in which case the category counts are read through
`safe_int` (missing counts modelled as `none`). -/
def wave_counts : Fetch (Option ℤ × Option ℤ) → ℤ × ℤ
  | .ok (e, c) => (safe_int e, safe_int c)
  | .failed => (0, 0)

/-- The scoring-relevant fields of the result dict built by `run_audit`
(identity fields, timestamp and the Lighthouse failed-audit titles are
omitted: no claim mentions them). -/
structure AuditScore where
  score : ℚ
  lighthouse : ℚ
  wave_errors : ℤ
  contrast : ℤ
  axe_critical : ℤ
  axe_serious : ℤ
  axe_total : ℤ
  axe_error : Option String
  recommendations : List String
  deriving DecidableEq

/-- Embeds the scoring pipeline of `run_audit` (app.py lines 344-497): the
outcomes of the Lighthouse call, the WAVE call and the two axe-core attempts
(default `retries=2`) are passed in explicitly. -/
def run_audit (lh : Fetch (Option ℚ)) (wave : Fetch (Option ℤ × Option ℤ))
    (run_axe : Bool) (a₁ a₂ : AxeAttempt) : AuditScore :=
  let lh_val := lh_value lh
  let err := (wave_counts wave).1
  let con := (wave_counts wave).2
  let axeRes := run_axe_test2 a₁ a₂
  let axe_critical : ℤ := if run_axe then axeRes.critical else 0
  let axe_serious : ℤ := if run_axe then axeRes.serious else 0
  let axe_total : ℤ := if run_axe then axeRes.total_violations else 0
  let axe_error : Option String := if run_axe then axeRes.error else none
  let cs := calculate_component_scores (some lh_val) (some err) (some con)
    (some axe_critical) (some axe_serious)
  let score := calculate_weighted_score cs.1 cs.2.1 cs.2.2 (!pyTruthyStr axe_error)
  let recommendations :=
    generate_recommendations score err con axe_critical axe_serious (pyTruthyStr axe_error)
  { score := score
    lighthouse := cs.1
    wave_errors := err
    contrast := con
    axe_critical := axe_critical
    axe_serious := axe_serious
    axe_total := axe_total
    axe_error := axe_error
    recommendations := recommendations }

/-- The structural-scan component score produced from the outcome of the
WAVE call, as computed inside `run_audit`. -/
def wave_component (wave : Fetch (Option ℤ × Option ℤ)) : ℚ :=
  (calculate_component_scores (some 0) (some (wave_counts wave).1)
    (some (wave_counts wave).2) (some 0) (some 0)).2.1

/-- The one-step unrolling used by `run_audit` agrees with the general retry
loop at the default `retries=2`. -/
theorem run_axe_test_two (a₁ a₂ : AxeAttempt) :
    run_axe_test [a₁, a₂] = some (run_axe_test2 a₁ a₂) := by
  cases a₁ <;> cases a₂ <;> rfl

/-- The floor used by the rounding helper is the integer floor. -/
theorem rfloor_eq_floor (q : ℚ) : rfloor q = ⌊q⌋ := by
  rw [rfloor, Int.fdiv_eq_ediv _ (Int.natCast_nonneg q.den), Rat.floor_def]

/-- Evaluation of `roundHalfEven` when the fractional part is below 1/2. -/
theorem roundHalfEven_lo (q : ℚ) (f : ℤ) (h₁ : (f : ℚ) ≤ q) (h₂ : q - f < 1/2) :
    roundHalfEven q = f := by
  have hf : rfloor q = f := by
    rw [rfloor_eq_floor]
    exact Int.floor_eq_iff.mpr ⟨h₁, by linarith⟩
  unfold roundHalfEven
  rw [hf, if_pos (by linarith)]

/-- Evaluation of `roundHalfEven` when the fractional part is above 1/2. -/
theorem roundHalfEven_hi (q : ℚ) (f : ℤ) (h₁ : (f : ℚ) ≤ q) (h₂ : 1/2 < q - f)
    (h₃ : q < f + 1) : roundHalfEven q = f + 1 := by
  have hf : rfloor q = f := by
    rw [rfloor_eq_floor]
    exact Int.floor_eq_iff.mpr ⟨h₁, by linarith⟩
  unfold roundHalfEven
  rw [hf, if_neg (by linarith), if_pos (by linarith)]

/-- Evaluation of `pyRound1` when no rounding up happens. -/
theorem pyRound1_lo (q : ℚ) (f : ℤ) (h₁ : (f : ℚ) ≤ q * 10) (h₂ : q * 10 - f < 1/2) :
    pyRound1 q = (f : ℚ) / 10 := by
  rw [pyRound1, roundHalfEven_lo (q * 10) f h₁ h₂]

/-- Evaluation of `pyRound1` when the value rounds up. -/
theorem pyRound1_hi (q : ℚ) (f : ℤ) (h₁ : (f : ℚ) ≤ q * 10) (h₂ : 1/2 < q * 10 - f)
    (h₃ : q * 10 < f + 1) : pyRound1 q = ((f : ℚ) + 1) / 10 := by
  rw [pyRound1, roundHalfEven_hi (q * 10) f h₁ h₂ h₃]
  push_cast
  ring

/-- With the axe source excluded, the aggregator is the renormalized weighted
sum of the two remaining components. -/
theorem weighted_score_axe_unavailable (lh wave axe : ℚ) :
    calculate_weighted_score lh wave axe false
      = pyRound1 ((4/10 * lh + 3/10 * wave) / (7/10)) := by
  unfold calculate_weighted_score
  norm_num
  congr 1
  ring

/-- Score of an audit whose two axe attempts both fail with a message whose
truncation is truthy: the axe weight is dropped and renormalized away. -/
theorem run_audit_axe_failed_score (lh : Fetch (Option ℚ))
    (wave : Fetch (Option ℤ × Option ℤ)) (m₁ m₂ : String)
    (h : pyTruthyStr (some (pyTruncate m₂ 120)) = true) :
    (run_audit lh wave true (.error m₁) (.error m₂)).score
      = pyRound1 ((4/10 * lh_value lh + 3/10 * wave_component wave) / (7/10)) := by
  have haxe : run_axe_test2 (.error m₁) (.error m₂) = axeFailure m₂ := rfl
  unfold run_audit
  rw [haxe]
  simp only [axeFailure, ite_true, h, Bool.not_true]
  rw [weighted_score_axe_unavailable]
  rfl

/-- Claim C1, counterexample.  In the spec scenario with the page-quality
source unavailable, structural score 93 and rule-engine score 95, the code
produces composite 56.4, not the claimed 94.0: a page-quality failure keeps
its 0.4 weight attached to a defaulted score of 0 instead of being excluded
and renormalized. -/
theorem one_source_down_counterexample :
    (run_audit .failed (.ok (some 5, some 2)) true
      (.ok [{ impact := some "serious" }]) (.ok [])).score = 56.4 ∧
    (56.4 : ℚ) ≠ 94.0 := by
  constructor
  · have h1 : run_axe_test2 (.ok [{ impact := some "serious" }]) (.ok [])
        = { total_violations := 1, critical := 0, serious := 1, moderate := 0, minor := 0,
            violations_details := [{ impact := some "serious" }], error := none } := by decide
    unfold run_audit
    rw [h1]
    norm_num [lh_value, wave_counts, safe_int, safe_float, pyTruthyStr,
      calculate_component_scores, calculate_weighted_score, max_def]
    rw [pyRound1_lo _ 564 (by norm_num) (by norm_num)]
    norm_num
  · norm_num

/-- Claim C1, amended.  Only the rule-engine source can be marked
unavailable; when it is, its weight is excluded and the remaining weights
(0.4/0.7 and 0.3/0.7) are renormalized to sum to 1.0.  A page-quality
failure is not excluded: its component score defaults to 0 while its 0.4
weight is kept, so the spec scenario yields composite 56.4 rather than
94.0. -/
theorem one_source_down_amended (lh wave axe : ℚ) :
    calculate_weighted_score lh wave axe false
      = pyRound1 ((4/10 * lh + 3/10 * wave) / (7/10)) ∧
    ((4 : ℚ)/10) / (7/10) + ((3 : ℚ)/10) / (7/10) = 1 ∧
    (run_audit .failed (.ok (some 5, some 2)) true
      (.ok [{ impact := some "serious" }]) (.ok [])).score = 56.4 := by
  refine ⟨weighted_score_axe_unavailable lh wave axe, by norm_num, ?_⟩
  have h1 : run_axe_test2 (.ok [{ impact := some "serious" }]) (.ok [])
      = { total_violations := 1, critical := 0, serious := 1, moderate := 0, minor := 0,
          violations_details := [{ impact := some "serious" }], error := none } := by decide
  unfold run_audit
  rw [h1]
  norm_num [lh_value, wave_counts, safe_int, safe_float, pyTruthyStr,
    calculate_component_scores, calculate_weighted_score, max_def]
  rw [pyRound1_lo _ 564 (by norm_num) (by norm_num)]
  norm_num

/-- Claim C2, counterexample.  A failed structural-scan (WAVE) call is scored
exactly like a successful call reporting zero issues: the audit result is
identical in the two cases, and the unreachable source contributes a perfect
zero-penalty component (the composite is 96.0, which includes 0.3 × 100 from
the failed source). -/
theorem wave_failure_counterexample :
    run_audit (.ok (some (9/10))) .failed true (.ok []) (.ok [])
      = run_audit (.ok (some (9/10))) (.ok (some 0, some 0)) true (.ok []) (.ok []) ∧
    (run_audit (.ok (some (9/10))) .failed true (.ok []) (.ok [])).score = 96 := by
  refine ⟨rfl, ?_⟩
  have h1 : run_axe_test2 (.ok []) (.ok []) = axeSuccess [] := by decide
  unfold run_audit
  rw [h1]
  norm_num [lh_value, wave_counts, safe_int, safe_float, pyTruthyStr, axeSuccess, countImpact,
    calculate_component_scores, calculate_weighted_score, max_def]
  rw [pyRound1_lo _ 960 (by norm_num) (by norm_num)]
  norm_num

/-- Claim C2, amended.  Only the rule-engine source has availability
tracking: when both axe attempts fail (with a truthy error message) its
metrics are excluded and the composite uses only the other two components;
a structural-scan failure, by contrast, is treated exactly as a report of
zero issues. -/
theorem availability_only_axe (lh : Fetch (Option ℚ))
    (wave : Fetch (Option ℤ × Option ℤ)) (m₁ m₂ : String) (a₁ a₂ : AxeAttempt)
    (h : pyTruthyStr (some (pyTruncate m₂ 120)) = true) :
    (run_audit lh wave true (.error m₁) (.error m₂)).score
      = pyRound1 ((4/10 * lh_value lh + 3/10 * wave_component wave) / (7/10)) ∧
    run_audit lh .failed true a₁ a₂ = run_audit lh (.ok (some 0, some 0)) true a₁ a₂ :=
  ⟨run_audit_axe_failed_score lh wave m₁ m₂ h, rfl⟩

/-- Claim C2, witness for the amended theorem. -/
theorem availability_only_axe_witness :
    (run_audit (.ok (some (9/10))) (.ok (some 5, some 2)) true
        (.error "a") (.error "b")).score
      = pyRound1 ((4/10 * lh_value (.ok (some (9/10)))
          + 3/10 * wave_component (.ok (some 5, some 2))) / (7/10)) ∧
    run_audit (.ok (some (9/10))) .failed true (.ok []) (.error "b")
      = run_audit (.ok (some (9/10))) (.ok (some 0, some 0)) true (.ok []) (.error "b") :=
  availability_only_axe (.ok (some (9/10))) (.ok (some 5, some 2)) "a" "b"
    (.ok []) (.error "b") (by decide)

/-- Claim C3, counterexample.  With all three sources unavailable the
composite score is 42.9 (the structural failure counts as a perfect 100 at
weight 0.3, the page-quality failure as 0 at weight 0.4, and only the axe
weight is renormalized away), not 0. -/
theorem full_degradation_counterexample :
    (run_audit .failed .failed true (.error "net down") (.error "net down")).score
      = 42.9 ∧ (42.9 : ℚ) ≠ 0 := by
  constructor
  · rw [run_audit_axe_failed_score .failed .failed "net down" "net down" (by decide)]
    norm_num [lh_value, wave_component, wave_counts, safe_int,
      calculate_component_scores, max_def]
    rw [pyRound1_hi _ 428 (by norm_num) (by norm_num) (by norm_num)]
    norm_num
  · norm_num

/-- Claim C3, amended.  If all three sources are unavailable the composite
score is 42.9, and the only degradation marker carried by the result is the
truncated axe error string; there is no full-degradation flag and the score
is not 0. -/
theorem full_degradation_amended (m₁ m₂ : String)
    (h : pyTruthyStr (some (pyTruncate m₂ 120)) = true) :
    (run_audit .failed .failed true (.error m₁) (.error m₂)).score = 42.9 ∧
    (run_audit .failed .failed true (.error m₁) (.error m₂)).axe_error
      = some (pyTruncate m₂ 120) := by
  constructor
  · rw [run_audit_axe_failed_score .failed .failed m₁ m₂ h]
    norm_num [lh_value, wave_component, wave_counts, safe_int,
      calculate_component_scores, max_def]
    rw [pyRound1_hi _ 428 (by norm_num) (by norm_num) (by norm_num)]
    norm_num
  · rfl

/-- Claim C3, witness for the amended theorem. -/
theorem full_degradation_amended_witness :
    (run_audit .failed .failed true (.error "a") (.error "net down")).score = 42.9 ∧
    (run_audit .failed .failed true (.error "a") (.error "net down")).axe_error
      = some (pyTruncate "net down" 120) :=
  full_degradation_amended "a" "net down" (by decide)

/-- Claim C4, counterexample.  A violation whose impact is absent or null is
not counted in the MINOR bucket: the success reading for one such violation
has `minor = 0` (and every other severity bucket 0) while
`total_violations = 1`. -/
theorem null_impact_counterexample :
    run_axe_test [Except.ok [{ impact := none }]]
      = some { total_violations := 1, critical := 0, serious := 0, moderate := 0, minor := 0,
               violations_details := [{ impact := none }], error := none } ∧
    (axeSuccess [{ impact := none }]).minor ≠ 1 := by decide

/-- Claim C4, amended.  Violations whose impact is absent or null are counted
in `total_violations` but in none of the four severity buckets: they are
dropped from the severity counts rather than defaulted to MINOR. -/
theorem null_impact_dropped (vs : List Violation) (h : ∀ v ∈ vs, v.impact = none) :
    (axeSuccess vs).total_violations = vs.length ∧
    (axeSuccess vs).critical = 0 ∧ (axeSuccess vs).serious = 0 ∧
    (axeSuccess vs).moderate = 0 ∧ (axeSuccess vs).minor = 0 := by
  refine ⟨rfl, ?_, ?_, ?_, ?_⟩ <;>
  · simp only [axeSuccess, countImpact, List.length_eq_zero, List.filter_eq_nil_iff]
    intro v hv
    simp [h v hv]

/-- Claim C4, witness for the amended theorem. -/
theorem null_impact_dropped_witness :
    (axeSuccess [{ impact := none }]).total_violations
        = [({ impact := none } : Violation)].length ∧
    (axeSuccess [{ impact := none }]).critical = 0 ∧
    (axeSuccess [{ impact := none }]).serious = 0 ∧
    (axeSuccess [{ impact := none }]).moderate = 0 ∧
    (axeSuccess [{ impact := none }]).minor = 0 :=
  null_impact_dropped [{ impact := none }] (by decide)

/-- Claim C5, counterexample.  The normalizer does not keep every component
in [0, 100]: a negative page-quality input is passed through below 0, and a
negative structural error count pushes the structural score above 100. -/
theorem component_bounds_counterexample :
    (calculate_component_scores (some (-5)) (some (-10)) (some 0) (some 0) (some 0)).1
      = -5 ∧
    (calculate_component_scores (some (-5)) (some (-10)) (some 0) (some 0) (some 0)).2.1
      = 112 ∧
    ¬(0 ≤ (-5 : ℚ)) ∧ ¬((112 : ℚ) ≤ 100) := by
  norm_num [calculate_component_scores, safe_int, safe_float, max_def]

/-- Claim C5, amended.  When the raw page-quality percentage lies in [0, 100]
and all counts are nonnegative, each of the three component scores lies in
[0, 100]; the structural and rule-engine scores are floored at 0, while the
page-quality score is passed through unchanged. -/
theorem component_scores_bounded (lh : ℚ) (err con crit ser : ℤ)
    (hlh₀ : 0 ≤ lh) (hlh₁ : lh ≤ 100) (herr : 0 ≤ err) (hcon : 0 ≤ con)
    (hcrit : 0 ≤ crit) (hser : 0 ≤ ser) :
    0 ≤ (calculate_component_scores (some lh) (some err) (some con) (some crit) (some ser)).1 ∧
    (calculate_component_scores (some lh) (some err) (some con) (some crit) (some ser)).1 ≤ 100 ∧
    0 ≤ (calculate_component_scores (some lh) (some err) (some con) (some crit) (some ser)).2.1 ∧
    (calculate_component_scores (some lh) (some err) (some con) (some crit) (some ser)).2.1 ≤ 100 ∧
    0 ≤ (calculate_component_scores (some lh) (some err) (some con) (some crit) (some ser)).2.2 ∧
    (calculate_component_scores (some lh) (some err) (some con) (some crit) (some ser)).2.2 ≤ 100 := by
  have herr' : (0 : ℚ) ≤ (err : ℚ) := by exact_mod_cast herr
  have hcon' : (0 : ℚ) ≤ (con : ℚ) := by exact_mod_cast hcon
  have hcrit' : (0 : ℚ) ≤ (crit : ℚ) := by exact_mod_cast hcrit
  have hser' : (0 : ℚ) ≤ (ser : ℚ) := by exact_mod_cast hser
  simp only [calculate_component_scores, safe_int, safe_float, Option.getD_some]
  refine ⟨hlh₀, hlh₁, le_max_left _ _, max_le (by norm_num) (by linarith),
    le_max_left _ _, max_le (by norm_num) (by linarith)⟩

/-- Claim C5, witness for the amended theorem. -/
theorem component_scores_bounded_witness :
    0 ≤ (calculate_component_scores (some 90) (some 5) (some 2) (some 0) (some 1)).1 ∧
    (calculate_component_scores (some 90) (some 5) (some 2) (some 0) (some 1)).1 ≤ 100 ∧
    0 ≤ (calculate_component_scores (some 90) (some 5) (some 2) (some 0) (some 1)).2.1 ∧
    (calculate_component_scores (some 90) (some 5) (some 2) (some 0) (some 1)).2.1 ≤ 100 ∧
    0 ≤ (calculate_component_scores (some 90) (some 5) (some 2) (some 0) (some 1)).2.2 ∧
    (calculate_component_scores (some 90) (some 5) (some 2) (some 0) (some 1)).2.2 ≤ 100 :=
  component_scores_bounded 90 5 2 0 1 (by norm_num) (by norm_num) (by norm_num)
    (by norm_num) (by norm_num) (by norm_num)

/-- Claim C6.  The nominal scenario: page-quality 90, structural errors 5,
contrast 2, rule-engine critical 0 and serious 1 normalize to component
scores (90, 93, 95), and with all sources available the composite is
0.4 × 90 + 0.3 × 93 + 0.3 × 95 = 92.4. -/
theorem nominal_scenario :
    calculate_component_scores (some 90) (some 5) (some 2) (some 0) (some 1)
      = (90, 93, 95) ∧
    calculate_weighted_score 90 93 95 true = 92.4 := by
  constructor
  · norm_num [calculate_component_scores, safe_int, safe_float, max_def]
  · unfold calculate_weighted_score
    norm_num
    rw [pyRound1_lo _ 924 (by norm_num) (by norm_num)]
    norm_num

/-- Claim C7.  On any successful rule-engine run the itemized findings are
capped at 5 entries (the first five violations), while the total and the
per-severity counts are computed over the full violation list. -/
theorem findings_capped_counts_full (vs : List Violation) (rest : List AxeAttempt) :
    run_axe_test (Except.ok vs :: rest) = some (axeSuccess vs) ∧
    (axeSuccess vs).violations_details.length ≤ 5 ∧
    (axeSuccess vs).violations_details = vs.take 5 ∧
    (axeSuccess vs).total_violations = vs.length ∧
    (axeSuccess vs).critical = countImpact vs "critical" ∧
    (axeSuccess vs).serious = countImpact vs "serious" ∧
    (axeSuccess vs).moderate = countImpact vs "moderate" ∧
    (axeSuccess vs).minor = countImpact vs "minor" := by
  refine ⟨rfl, ?_, rfl, rfl, rfl, rfl, rfl, rfl⟩
  simp only [axeSuccess, List.length_take]
  exact min_le_left _ _

/-- Claim C8.  With the default two attempts, the invoker returns the error
reading (error set to the message truncated to at most 120 characters, all
counts zero) exactly when both attempts fail, taking the last message; a
success on the first attempt, or on the second after a first failure,
returns the success reading with no error. -/
theorem retry_exhaustion (a₁ a₂ : AxeAttempt) :
    (∀ m₁ m₂, a₁ = .error m₁ → a₂ = .error m₂ →
      run_axe_test [a₁, a₂] = some (axeFailure m₂) ∧
      (axeFailure m₂).error = some (pyTruncate m₂ 120) ∧
      (pyTruncate m₂ 120).length ≤ 120 ∧
      axeFailure m₂ = { total_violations := 0, critical := 0, serious := 0,
                        moderate := 0, minor := 0, violations_details := [],
                        error := some (pyTruncate m₂ 120) }) ∧
    (∀ vs, a₁ = .ok vs →
      run_axe_test [a₁, a₂] = some (axeSuccess vs) ∧ (axeSuccess vs).error = none) ∧
    (∀ m₁ vs, a₁ = .error m₁ → a₂ = .ok vs →
      run_axe_test [a₁, a₂] = some (axeSuccess vs) ∧ (axeSuccess vs).error = none) := by
  refine ⟨?_, ?_, ?_⟩
  · rintro m₁ m₂ rfl rfl
    refine ⟨rfl, rfl, ?_, rfl⟩
    show (m₂.data.take 120).length ≤ 120
    rw [List.length_take]
    exact min_le_left _ _
  · rintro vs rfl
    exact ⟨rfl, rfl⟩
  · rintro m₁ vs rfl rfl
    exact ⟨rfl, rfl⟩

/-- Claim C8, witness. -/
theorem retry_exhaustion_witness :
    run_axe_test [Except.error "boom", Except.error "crash"] = some (axeFailure "crash") ∧
    run_axe_test [Except.ok ([] : List Violation), Except.error "x"] = some (axeSuccess []) :=
  ⟨((retry_exhaustion (.error "boom") (.error "crash")).1 "boom" "crash" rfl rfl).1,
   ((retry_exhaustion (.ok []) (.error "x")).2.1 [] rfl).1⟩

/-- Claim C9, counterexample.  The rule list of the code is not the one the
claim states: an axe-error rule fires before the critical-count rule, so on
score 85 with all counts zero and the error flag set the code emits the
axe-unstable message while the claimed rule list would emit the single
default recommendation. -/
theorem recommendation_order_counterexample :
    generate_recommendations 85 0 0 0 0 true
      = ["⚠️ Axe-core unstable: results not included in score"] ∧
    spec_recommendations 85 0 0 0 0 true = ["✅ No major issues detected"] ∧
    generate_recommendations 85 0 0 0 0 true ≠ spec_recommendations 85 0 0 0 0 true := by
  have h1 : generate_recommendations 85 0 0 0 0 true
      = ["⚠️ Axe-core unstable: results not included in score"] := by
    norm_num [generate_recommendations]
  have h2 : spec_recommendations 85 0 0 0 0 true = ["✅ No major issues detected"] := by
    norm_num [spec_recommendations, rule_body]
  exact ⟨h1, h2, by rw [h1, h2]; decide⟩

/-- Claim C9, amended.  Recommendation generation evaluates a fixed rule
list with an axe-error rule first, then critical-count, serious-count,
contrast, error-count and the composite-score band; each rule appends a
labeled string or is skipped, the output is never empty, and when no rule
fires (the error flag clear included) it is exactly the single default
recommendation. -/
theorem recommendation_rules (score : ℚ) (e c cr sr : ℤ) (ax : Bool) :
    generate_recommendations score e c cr sr true
      = "⚠️ Axe-core unstable: results not included in score"
          :: rule_body score e c cr sr ∧
    generate_recommendations score e c cr sr false
      = (if rule_body score e c cr sr = [] then ["✅ No major issues detected"]
         else rule_body score e c cr sr) ∧
    generate_recommendations score e c cr sr ax ≠ [] := by
  have hT : generate_recommendations score e c cr sr true
      = "⚠️ Axe-core unstable: results not included in score"
          :: rule_body score e c cr sr := by
    simp [generate_recommendations, rule_body]
  have hF : generate_recommendations score e c cr sr false
      = (if rule_body score e c cr sr = [] then ["✅ No major issues detected"]
         else rule_body score e c cr sr) := by
    simp [generate_recommendations, rule_body]
  refine ⟨hT, hF, ?_⟩
  cases ax
  · rw [hF]
    split <;> simp_all
  · rw [hT]
    simp

/-- Claim C10.  With the axe source marked unavailable the composite equals
round((0.4·lh + 0.3·wave) / 0.7, 1) for all component values, and in
particular does not depend on the axe component score. -/
theorem axe_unavailable_renormalizes (lh wave axe axe' : ℚ) :
    calculate_weighted_score lh wave axe false
      = pyRound1 ((4/10 * lh + 3/10 * wave) / (7/10)) ∧
    calculate_weighted_score lh wave axe false
      = calculate_weighted_score lh wave axe' false :=
  ⟨weighted_score_axe_unavailable lh wave axe,
   (weighted_score_axe_unavailable lh wave axe).trans
     (weighted_score_axe_unavailable lh wave axe').symm⟩

end AccessApp
